import Mathlib

/-!
# Verification of the audio-mixing pipeline (`src/app/api/combine-audio/route.ts`)

Shallow embedding of the combine-audio route.  Caller-supplied JS numbers are
modelled as rationals (every finite IEEE double is a rational number); the
decibel values computed with `Math.log10` live in `ℝ`.  External collaborators
(process execution, the synthesis provider, object storage, `fetch`, the
filesystem) are abstracted by an `Env` of outcomes, and every externally
visible action of one invocation is logged as an `Event`.
-/

namespace Subliminal

/-- The JSON body of the POST request (route.ts:85-93), after the `typeof`
checks have established every numeric field's type.  `trackDuration` is the
field the source renames to `requestTrackDuration` (route.ts:90). -/
structure MixRequest where
  text : String
  selectedBackingTrack : String
  ttsVolume : ℚ
  backingTrackVolume : ℚ
  trackDuration : ℚ
  ttsSpeed : ℚ
  ttsDuration : ℚ

/-- Outcomes of the external collaborators for one invocation.  `now` is the
value `Date.now()` returns; the worst case for path uniqueness is that every
call of the invocation lands on the same millisecond, which is what this
models. -/
structure Env where
  ffmpegOk : Bool
  pollyOk : Bool
  s3Ok : Bool
  fetchOk : String → Bool
  silenceOk : Bool
  mixOk : Bool
  readOk : Bool
  now : ℕ
  bucket : String
  region : String

/-- Error conditions thrown inside the route; the catch-all at
route.ts:215-218 maps each of them to a 500 JSON response. -/
inductive MixError where
  | ffmpegMissing
  | speedOutOfRange
  | durationExceedsTrack
  | repeatRange
  | synthesisFailed
  | storageFailed
  | fetchFailed
  | silenceFailed
  | mixFailed
  | readFailed
deriving DecidableEq

/-- Structured form of the `-filter_complex` string built in `mixAudio`
(route.ts:183-188):
`[0:a]atempo=S,volume=XdB,aloop=loop=L:size=Z[a];[1:a]volume=YdB[b];`
`[a][b]amix=inputs=2:duration=longest:weights=v w,asetpts=PTS-STARTPTS,atrim=0:T`.
The speech chain carries the single factor `ttsSpeed` interpolated at
route.ts:188; the route does not call its `getAtempoFilters` helper. -/
structure FilterGraph where
  atempo : List ℚ
  speechGainDb : ℝ
  loopCount : ℤ
  loopSize : ℤ
  backingGainDb : ℝ
  weights : ℚ × ℚ
  trimStart : ℚ
  trimEnd : ℚ

/-- Externally visible actions of one invocation, in order. -/
inductive Event where
  | versionProbe
  | synthCall (chunk : String)
  | s3Put (key : String)
  | netFetch (url : String)
  | fsWrite (path : String)
  | silenceExec (path : String) (duration : ℚ)
  | mixExec (g : FilterGraph) (ttsPath backingPath outputPath : String)
  | fsRead (path : String)
  | fsUnlink (path : String)

/-- Trace and temp-file bookkeeping for one invocation.  `files` is the set of
temporary files currently on disk, `created` records every temp path the
invocation ever allocated. -/
structure PipeState where
  events : List Event
  files : List String
  created : List String

/-- The HTTP response produced by the route: a binary audio attachment, or a
JSON error body with a status code. -/
inductive ApiResponse where
  | audio (filename : String)
  | jsonError (status : ℕ) (error : String)

/-- HTTP status of a response (200 for the binary success payload). -/
def ApiResponse.status : ApiResponse → ℕ
  | .audio _ => 200
  | .jsonError s _ => s

/-- The catch-all response of route.ts:217. -/
def internalError : ApiResponse := .jsonError 500 "Internal Server Error"

/-- JS `s.startsWith(p)`, modelled on the character lists of the strings. -/
def jsStartsWith (s p : String) : Bool := p.data.isPrefixOf s.data

def emit (e : Event) (st : PipeState) : PipeState :=
  { st with events := st.events ++ [e] }

def createFile (p : String) (st : PipeState) : PipeState :=
  { st with files := st.files ++ [p], created := st.created ++ [p] }

/-- `fs.unlink` of one temp file (route.ts:202-206). -/
def unlink (p : String) (st : PipeState) : PipeState :=
  { st with events := st.events ++ [.fsUnlink p], files := st.files.filter (· ≠ p) }

/-- `path.join(os.tmpdir(), name)` with the temp directory fixed at `/tmp`. -/
def tmpJoin (name : String) : String := "/tmp/" ++ name

/-- `getAtempoFilters` (route.ts:45-69), first while loop:
`while (speed > 2.0) { filters.push('atempo=2.0'); speed /= 2.0; }`.
Fuel bounds the iteration count; the caller clamps its input to `[0.5, 4.0]`
first, so fuel 2 is never exhausted. -/
def halveLoop : ℕ → ℚ → List ℚ × ℚ
  | 0, s => ([], s)
  | n + 1, s =>
    if 2 < s then
      let r := halveLoop n (s / 2)
      (2 :: r.1, r.2)
    else ([], s)

/-- `getAtempoFilters`, second while loop:
`while (speed < 0.5) { filters.push('atempo=0.5'); speed /= 0.5; }`. -/
def doubleLoop : ℕ → ℚ → List ℚ × ℚ
  | 0, s => ([], s)
  | n + 1, s =>
    if s < 1 / 2 then
      let r := doubleLoop n (s / (1 / 2))
      ((1 / 2) :: r.1, r.2)
    else ([], s)

/-- `speed.toFixed(2)` (route.ts:65) read back as a number: rounding to two
decimal places.  For the positive residuals produced here, JS `toFixed`
rounding agrees with `round` (half away from zero equals half up). -/
def round2 (x : ℚ) : ℚ := (round (x * 100) : ℚ) / 100

/-- `getAtempoFilters(speed)` (route.ts:45-69): clamp the speed into
`[0.5, 4.0]`, peel off factors `2.0` while the residual exceeds `2.0` (and
`0.5` while it is below `0.5`, unreachable after the clamp), then push the
two-decimal rendering of the residual unless it is exactly `1.0`.  The list
holds the numeric factors of the returned `atempo=<f>` strings. -/
def getAtempoFilters (speed : ℚ) : List ℚ :=
  let s := min (max speed (1 / 2)) 4
  let h := halveLoop 2 s
  let d := doubleLoop 2 h.2
  h.1 ++ d.1 ++ (if d.2 = 1 then [] else [round2 d.2])

/-- `text.repeat(n)`. -/
def strRepeat (s : String) (n : ℕ) : String := String.join (List.replicate n s)

/-- `text.repeat(Math.ceil(900 / ttsDuration))` (route.ts:136).  In JS,
`900 / 0` is `Infinity` and `String.prototype.repeat` throws a `RangeError`
for negative or infinite counts; the infinite case is the explicit `d = 0`
test here because rational division by zero yields `0`.  (The engine-side
maximum string length is not modelled.) -/
def repeatedText (text : String) (d : ℚ) : Except MixError String :=
  if d = 0 then .error .repeatRange
  else if ⌈(900 : ℚ) / d⌉ < 0 then .error .repeatRange
  else .ok (strRepeat text ⌈(900 : ℚ) / d⌉.toNat)

/-- The S3 URL collected per chunk (route.ts:260). -/
def s3Url (env : Env) (key : String) : String :=
  "https://" ++ env.bucket ++ ".s3." ++ env.region ++ ".amazonaws.com/" ++ key

/-- The per-chunk loop of `generatePollyTTS` (route.ts:231-261): synthesize the
chunk, upload it under `tts_${Date.now()}_${index}.mp3`, collect the URL.
`i` is `audioUrls.length`, the number of chunks finished so far. -/
def pollyChunks (env : Env) :
    List String → ℕ → PipeState → Except MixError (List String) × PipeState
  | [], _, st => (.ok [], st)
  | chunk :: rest, i, st =>
    let st := emit (.synthCall chunk) st
    if env.pollyOk then
      let key := "tts_" ++ toString env.now ++ "_" ++ toString i ++ ".mp3"
      let st := emit (.s3Put key) st
      if env.s3Ok then
        match pollyChunks env rest (i + 1) st with
        | (.ok urls, st) => (.ok (s3Url env key :: urls), st)
        | (.error e, st) => (.error e, st)
      else (.error .storageFailed, st)
    else (.error .synthesisFailed, st)

/-- `generatePollyTTS(text)` (route.ts:221-264): slice the text into contiguous
chunks of at most 3000 characters, synthesize and upload each, and return the
storage URLs joined with `","`. -/
def generatePollyTTS (env : Env) (text : String) (st : PipeState) :
    Except MixError String × PipeState :=
  match pollyChunks env ((text.data.toChunks 3000).map String.mk) 0 st with
  | (.ok urls, st) => (.ok (String.intercalate "," urls), st)
  | (.error e, st) => (.error e, st)

/-- `downloadAudio(url, prefix)` (route.ts:266-294): a `data:` URL is decoded
and written directly; any other URL is fetched over the network first.  Either
branch writes `${prefix}_${Date.now()}.mp3` in the temp directory.  `pfx`
stands for the source's `prefix` parameter (a reserved word here). -/
def downloadAudio (env : Env) (url pfx : String) (st : PipeState) :
    Except MixError String × PipeState :=
  let tempPath := tmpJoin (pfx ++ "_" ++ toString env.now ++ ".mp3")
  if jsStartsWith url "data:" then
    (.ok tempPath, createFile tempPath (emit (.fsWrite tempPath) st))
  else
    let st := emit (.netFetch url) st
    if env.fetchOk url then
      (.ok tempPath, createFile tempPath (emit (.fsWrite tempPath) st))
    else (.error .fetchFailed, st)

/-- `createSilentAudio(outputPath, duration)` (route.ts:297-300): one engine
process generates a silent file of the given duration at `outputPath`. -/
def createSilentAudio (env : Env) (outputPath : String) (duration : ℚ)
    (st : PipeState) : Except MixError Unit × PipeState :=
  let st := emit (.silenceExec outputPath duration) st
  if env.silenceOk then (.ok (), createFile outputPath st)
  else (.error .silenceFailed, st)

/-- The filter-graph parameters `mixAudio` interpolates into its command
string (route.ts:183-188).  `Math.log10` is real `logb 10` (at a linear gain
of `0` JS produces `-Infinity` where the real model's junk value is `0`; no
claim evaluates the conversion there). -/
noncomputable def buildFilterGraph
    (ttsVolume backingTrackVolume trackDuration ttsSpeed ttsDuration : ℚ) :
    FilterGraph :=
  { atempo := [ttsSpeed]
    speechGainDb := Real.logb 10 (ttsVolume : ℝ) * 20
    loopCount := ⌈trackDuration / (ttsDuration / ttsSpeed)⌉
    loopSize := ⌊ttsDuration * 48000⌋
    backingGainDb := Real.logb 10 (backingTrackVolume : ℝ) * 20
    weights := (ttsVolume, backingTrackVolume)
    trimStart := 0
    trimEnd := trackDuration }

/-- `mixAudio` (route.ts:165-191): build the filter graph from its parameters
and run one engine process writing `outputPath`. -/
noncomputable def mixAudio (env : Env) (ttsPath backingPath : String)
    (ttsVolume backingTrackVolume trackDuration ttsSpeed ttsDuration : ℚ)
    (outputPath : String) (st : PipeState) : Except MixError Unit × PipeState :=
  let g := buildFilterGraph ttsVolume backingTrackVolume trackDuration ttsSpeed
    ttsDuration
  let st := emit (.mixExec g ttsPath backingPath outputPath) st
  if env.mixOk then (.ok (), createFile outputPath st)
  else (.error .mixFailed, st)

/-- Backing-track resolution (route.ts:151-161): for the sentinel
`"present"` generate silence of the request's `trackDuration` at the fixed
path `silent.mp3`; otherwise download the selected track. -/
noncomputable def resolveBacking (env : Env) (req : MixRequest)
    (st : PipeState) : Except MixError String × PipeState :=
  if req.selectedBackingTrack = "present" then
    let p := tmpJoin "silent.mp3"
    match createSilentAudio env p req.trackDuration st with
    | (.ok _, st) => (.ok p, st)
    | (.error e, st) => (.error e, st)
  else downloadAudio env req.selectedBackingTrack "backing" st

/-- Mixing and cleanup (route.ts:163-206): mix with the shadowing constant
`trackDuration = 900` (route.ts:192) into `combined_${Date.now()}.mp3`, read
the output, and on the success path delete the three temp files. -/
noncomputable def afterFiles (env : Env) (req : MixRequest)
    (ttsAudioPath backingTrackPath : String) (st : PipeState) :
    ApiResponse × PipeState :=
  let outputPath := tmpJoin ("combined_" ++ toString env.now ++ ".mp3")
  let trackDuration : ℚ := 900
  match mixAudio env ttsAudioPath backingTrackPath req.ttsVolume
      req.backingTrackVolume trackDuration req.ttsSpeed
      req.ttsDuration outputPath st with
  | (.error _, st) => (internalError, st)
  | (.ok _, st) =>
    let st := emit (.fsRead outputPath) st
    if ¬env.readOk then (internalError, st)
    else
      let st := unlink outputPath (unlink backingTrackPath
        (unlink ttsAudioPath st))
      (.audio "combined_affirmation_audio.mp3", st)

/-- Steps of the POST handler from the speech download on (route.ts:147-214):
fetch the speech audio locally, resolve the backing track, then mix, read and
clean up. -/
noncomputable def pipelineAfterUrl (env : Env) (req : MixRequest)
    (ttsAudioUrl : String) (st : PipeState) : ApiResponse × PipeState :=
  match downloadAudio env ttsAudioUrl "tts" st with
  | (.error _, st) => (internalError, st)
  | (.ok ttsAudioPath, st) =>
    match resolveBacking env req st with
    | (.error _, st) => (internalError, st)
    | (.ok backingTrackPath, st) =>
      afterFiles env req ttsAudioPath backingTrackPath st

/-- The POST handler (route.ts:71-219): version probe, parameter validation
(in this typed model only the falsy empty-string cases of `!text` and
`!selectedBackingTrack` can fail, with a 400 response), the two thrown range
validations, text repetition, speech acquisition (inline passthrough or
synthesis), then the rest of the pipeline (`pipelineAfterUrl`).  Every thrown
error is mapped by the catch-all at route.ts:215-218 to a 500 response. -/
noncomputable def POST (env : Env) (req : MixRequest) : ApiResponse × PipeState :=
  let st := emit .versionProbe ⟨[], [], []⟩
  if ¬env.ffmpegOk then (internalError, st)
  else if req.text = "" ∨ req.selectedBackingTrack = "" then
    (.jsonError 400 "Invalid or missing audio parameters.", st)
  else if req.ttsSpeed < 1 / 2 ∨ 4 < req.ttsSpeed then (internalError, st)
  else if req.trackDuration < req.ttsDuration then (internalError, st)
  else
    match repeatedText req.text req.ttsDuration with
    | .error _ => (internalError, st)
    | .ok textToGenerate =>
      match (if jsStartsWith req.text "data:audio" then (.ok req.text, st)
             else generatePollyTTS env textToGenerate st) with
      | (.error _, st) => (internalError, st)
      | (.ok ttsAudioUrl, st) => pipelineAfterUrl env req ttsAudioUrl st

/-- The forms a temporary path allocated by one invocation can take: the
fixed silence path, or a semantic prefix plus the invocation's `Date.now()`
value. -/
def allowedTempPath (env : Env) (p : String) : Prop :=
  p = tmpJoin "silent.mp3" ∨
    ∃ pfx, (pfx = "tts" ∨ pfx = "backing" ∨ pfx = "combined") ∧
      p = tmpJoin (pfx ++ "_" ++ toString env.now ++ ".mp3")

/-! ## Concrete inputs used to evaluate the pipeline -/

/-- Fully successful collaborator environment, with `Date.now() = 5`. -/
def envOk : Env := ⟨true, true, true, fun _ => true, true, true, true, 5, "bkt", "rgn"⟩

/-- Environment in which the engine's mixing process fails. -/
def envMixFail : Env := { envOk with mixOk := false }

/-- State after only the version probe has run. -/
def probeOnly : PipeState := ⟨[.versionProbe], [], []⟩

/-- Inline speech and backing audio, requested track duration 600 s, speech
duration 30 s, unit speed and gains. -/
def reqInline600 : MixRequest :=
  ⟨"data:audio/mp3;base64,AA", "data:audio/mp3;base64,BB", 1, 1, 600, 1, 30⟩

/-- As `reqInline600` but with track duration 900 s and `ttsSpeed = 3`. -/
def reqSpeed3 : MixRequest :=
  ⟨"data:audio/mp3;base64,AA", "data:audio/mp3;base64,BB", 1, 1, 900, 3, 30⟩

/-- A request whose speech duration (600 s) exceeds its track duration (500 s). -/
def reqOverLong : MixRequest := ⟨"hello", "data:audio/mp3;base64,BB", 1, 1, 500, 1, 600⟩

/-- A request with `ttsSpeed = 5.0`, outside the allowed range. -/
def reqSpeed5 : MixRequest := ⟨"hello", "data:audio/mp3;base64,BB", 1, 1, 900, 5, 30⟩

/-- Inline audio with `ttsDuration = -1000`: the repeat count
`ceil(900 / -1000) = 0`, so no `RangeError` occurs and the pipeline runs to
completion. -/
def reqNegDur : MixRequest :=
  ⟨"data:audio/mp3;base64,AA", "data:audio/mp3;base64,BB", 1, 1, 900, 1, -1000⟩

/-- A request with `ttsDuration = -30`, which makes `text.repeat` throw. -/
def reqNegSmall : MixRequest := ⟨"hello", "data:audio/mp3;base64,BB", 1, 1, 900, 1, -30⟩

/-- A request using the no-backing-track sentinel `"present"`. -/
def reqPresent : MixRequest := ⟨"data:audio/mp3;base64,AA", "present", 1, 1, 600, 1, 30⟩

/-! ## Shape lemmas for the collaborator steps -/

lemma downloadAudio_cases (env : Env) (url pfx : String) (st : PipeState) :
    downloadAudio env url pfx st =
      (.ok (tmpJoin (pfx ++ "_" ++ toString env.now ++ ".mp3")),
       { st with
          events := st.events ++
            [.fsWrite (tmpJoin (pfx ++ "_" ++ toString env.now ++ ".mp3"))],
          files := st.files ++ [tmpJoin (pfx ++ "_" ++ toString env.now ++ ".mp3")],
          created :=
            st.created ++ [tmpJoin (pfx ++ "_" ++ toString env.now ++ ".mp3")] }) ∨
    downloadAudio env url pfx st =
      (.ok (tmpJoin (pfx ++ "_" ++ toString env.now ++ ".mp3")),
       { st with
          events := st.events ++
            [.netFetch url,
             .fsWrite (tmpJoin (pfx ++ "_" ++ toString env.now ++ ".mp3"))],
          files := st.files ++ [tmpJoin (pfx ++ "_" ++ toString env.now ++ ".mp3")],
          created :=
            st.created ++ [tmpJoin (pfx ++ "_" ++ toString env.now ++ ".mp3")] }) ∨
    downloadAudio env url pfx st =
      (.error .fetchFailed, { st with events := st.events ++ [.netFetch url] }) := by
  unfold downloadAudio
  split_ifs with h1 h2
  · left; simp [emit, createFile]
  · right; left; simp [emit, createFile, List.append_assoc]
  · right; right; simp [emit]

lemma createSilentAudio_cases (env : Env) (p : String) (dur : ℚ) (st : PipeState) :
    createSilentAudio env p dur st =
      (.ok (), { st with
          events := st.events ++ [.silenceExec p dur],
          files := st.files ++ [p],
          created := st.created ++ [p] }) ∨
    createSilentAudio env p dur st =
      (.error .silenceFailed, { st with events := st.events ++ [.silenceExec p dur] }) := by
  unfold createSilentAudio
  split_ifs with h1
  · left; simp [emit, createFile]
  · right; simp [emit]

lemma mixAudio_cases (env : Env) (t b : String) (v w td s d : ℚ) (o : String)
    (st : PipeState) :
    mixAudio env t b v w td s d o st =
      (.ok (), { st with
          events := st.events ++ [.mixExec (buildFilterGraph v w td s d) t b o],
          files := st.files ++ [o],
          created := st.created ++ [o] }) ∨
    mixAudio env t b v w td s d o st =
      (.error .mixFailed, { st with
        events := st.events ++ [.mixExec (buildFilterGraph v w td s d) t b o] }) := by
  unfold mixAudio
  split_ifs with h1
  · left; simp [emit, createFile]
  · right; simp [emit]

lemma pollyChunks_shape (env : Env) (cs : List String) :
    ∀ (i : ℕ) (st : PipeState),
      ∃ δ, (pollyChunks env cs i st).2.events = st.events ++ δ ∧
        (pollyChunks env cs i st).2.files = st.files ∧
        (pollyChunks env cs i st).2.created = st.created ∧
        ∀ e ∈ δ, (∃ c, e = Event.synthCall c) ∨ ∃ k, e = Event.s3Put k := by
  induction cs with
  | nil => intro i st; exact ⟨[], by simp [pollyChunks], by simp [pollyChunks],
      by simp [pollyChunks], by simp⟩
  | cons c rest ih =>
    intro i st
    unfold pollyChunks
    by_cases hp : env.pollyOk
    · by_cases hs : env.s3Ok
      · obtain ⟨δ, he, hf, hc, hδ⟩ := ih (i + 1)
          (emit (.s3Put ("tts_" ++ toString env.now ++ "_" ++ toString i ++ ".mp3"))
            (emit (.synthCall c) st))
        rcases hrec : pollyChunks env rest (i + 1)
            (emit (.s3Put ("tts_" ++ toString env.now ++ "_" ++ toString i ++ ".mp3"))
              (emit (.synthCall c) st)) with ⟨res, st2⟩
        rw [hrec] at he hf hc
        have he2 : st2.events = (st.events ++ [Event.synthCall c]) ++
            [Event.s3Put ("tts_" ++ toString env.now ++ "_" ++ toString i ++ ".mp3")] ++
            δ := by simpa [emit, List.append_assoc] using he
        have hf2 : st2.files = st.files := by simpa using hf
        have hc2 : st2.created = st.created := by simpa using hc
        refine ⟨[.synthCall c,
          .s3Put ("tts_" ++ toString env.now ++ "_" ++ toString i ++ ".mp3")] ++ δ,
          ?_, ?_, ?_, ?_⟩
        · simp only [hp, hs, if_true, hrec]
          rcases res with e | urls <;> simp [he2, List.append_assoc]
        · simp only [hp, hs, if_true, hrec]
          rcases res with e | urls <;> simp [hf2]
        · simp only [hp, hs, if_true, hrec]
          rcases res with e | urls <;> simp [hc2]
        · intro e he'
          rcases List.mem_append.1 he' with h | h
          · simp only [List.mem_cons, List.mem_singleton, List.not_mem_nil,
              or_false] at h
            rcases h with h | h
            · exact Or.inl ⟨c, h⟩
            · exact Or.inr ⟨_, h⟩
          · exact hδ e h
      · refine ⟨[.synthCall c,
          .s3Put ("tts_" ++ toString env.now ++ "_" ++ toString i ++ ".mp3")],
          ?_, ?_, ?_, ?_⟩
        · simp [hp, hs, emit, List.append_assoc]
        · simp [hp, hs, emit]
        · simp [hp, hs, emit]
        · intro e he'
          simp only [List.mem_cons, List.mem_singleton, List.not_mem_nil,
            or_false] at he'
          rcases he' with h | h
          · exact Or.inl ⟨c, h⟩
          · exact Or.inr ⟨_, h⟩
    · refine ⟨[.synthCall c], ?_, ?_, ?_, ?_⟩
      · simp [hp, emit]
      · simp [hp, emit]
      · simp [hp, emit]
      · intro e he'
        simp only [List.mem_singleton] at he'
        exact Or.inl ⟨c, he'⟩

lemma generatePollyTTS_shape (env : Env) (text : String) (st : PipeState) :
    ∃ δ, (generatePollyTTS env text st).2.events = st.events ++ δ ∧
      (generatePollyTTS env text st).2.files = st.files ∧
      (generatePollyTTS env text st).2.created = st.created ∧
      ∀ e ∈ δ, (∃ c, e = Event.synthCall c) ∨ ∃ k, e = Event.s3Put k := by
  obtain ⟨δ, he, hf, hc, hδ⟩ :=
    pollyChunks_shape env ((text.data.toChunks 3000).map String.mk) 0 st
  rcases hrec : pollyChunks env ((text.data.toChunks 3000).map String.mk) 0 st
    with ⟨res, st2⟩
  rw [hrec] at he hf hc
  have he2 : st2.events = st.events ++ δ := by simpa using he
  have hf2 : st2.files = st.files := by simpa using hf
  have hc2 : st2.created = st.created := by simpa using hc
  refine ⟨δ, ?_, ?_, ?_, hδ⟩ <;>
    · unfold generatePollyTTS
      rw [hrec]
      rcases res with e | urls <;> simp [he2, hf2, hc2]

/-- Removing each of three just-created paths by the three `unlink` filters
leaves no file behind. -/
lemma filter_three (a b c : String) :
    ((([a, b, c] : List String).filter (· ≠ a)).filter (· ≠ b)).filter
      (· ≠ c) = [] := by
  by_cases hba : b = a <;> by_cases hca : c = a <;> by_cases hcb : c = b <;>
    simp [hba, hca, hcb]

/-- Outcome shapes of `resolveBacking`: it appends no mix event, it creates at
most one file (the fixed silence path or the `backing`-and-timestamp path),
and on success the returned path is exactly the file it created. -/
lemma resolveBacking_shape (env : Env) (req : MixRequest) (st : PipeState) :
    ∃ δ nf, (resolveBacking env req st).2.events = st.events ++ δ ∧
      (resolveBacking env req st).2.files = st.files ++ nf ∧
      (resolveBacking env req st).2.created = st.created ++ nf ∧
      (∀ g t b o, Event.mixExec g t b o ∉ δ) ∧
      (∀ p ∈ nf, p = tmpJoin "silent.mp3" ∨
        p = tmpJoin ("backing" ++ "_" ++ toString env.now ++ ".mp3")) ∧
      (∀ bp, (resolveBacking env req st).1 = .ok bp → nf = [bp]) := by
  unfold resolveBacking
  by_cases hpres : req.selectedBackingTrack = "present"
  · simp only [hpres, if_true]
    rcases createSilentAudio_cases env (tmpJoin "silent.mp3") req.trackDuration
        st with hs | hs <;> rw [hs]
    · exact ⟨[.silenceExec (tmpJoin "silent.mp3") req.trackDuration],
        [tmpJoin "silent.mp3"], rfl, rfl, rfl, by simp, by simp,
        by intro bp h; simp at h; simp [h]⟩
    · exact ⟨[.silenceExec (tmpJoin "silent.mp3") req.trackDuration], [],
        rfl, by simp, by simp, by simp, by simp, by intro bp h; simp at h⟩
  · simp only [hpres, if_false]
    rcases downloadAudio_cases env req.selectedBackingTrack "backing" st with
      hd | hd | hd <;> rw [hd]
    · exact ⟨[.fsWrite (tmpJoin ("backing" ++ "_" ++ toString env.now ++ ".mp3"))],
        [tmpJoin ("backing" ++ "_" ++ toString env.now ++ ".mp3")],
        rfl, rfl, rfl, by simp, by simp, by intro bp h; simp at h; simp [h]⟩
    · exact ⟨[.netFetch req.selectedBackingTrack,
        .fsWrite (tmpJoin ("backing" ++ "_" ++ toString env.now ++ ".mp3"))],
        [tmpJoin ("backing" ++ "_" ++ toString env.now ++ ".mp3")],
        rfl, rfl, rfl, by simp, by simp, by intro bp h; simp at h; simp [h]⟩
    · exact ⟨[.netFetch req.selectedBackingTrack], [], rfl, by simp, by simp,
        by simp, by simp, by intro bp h; simp at h⟩

/-- Invariants of the mix-read-cleanup tail, given that the two input files
are exactly the files on disk: every mix event in the final trace carries the
graph built from the request's numbers and the constant 900; a success
response leaves no file; every path created is an allowed temp path. -/
lemma afterFiles_inv (env : Env) (req : MixRequest) (tp bp : String)
    (st : PipeState)
    (hmix : ∀ g t b o, Event.mixExec g t b o ∉ st.events)
    (hf : st.files = [tp, bp])
    (hc : ∀ p ∈ st.created, allowedTempPath env p) :
    (∀ g t b o,
      Event.mixExec g t b o ∈ (afterFiles env req tp bp st).2.events →
      g = buildFilterGraph req.ttsVolume req.backingTrackVolume 900
        req.ttsSpeed req.ttsDuration) ∧
    (∀ fn, (afterFiles env req tp bp st).1 = .audio fn →
      (afterFiles env req tp bp st).2.files = []) ∧
    (∀ p, p ∈ (afterFiles env req tp bp st).2.created →
      allowedTempPath env p) := by
  unfold afterFiles
  dsimp only
  rcases mixAudio_cases env tp bp req.ttsVolume req.backingTrackVolume 900
      req.ttsSpeed req.ttsDuration
      (tmpJoin ("combined_" ++ toString env.now ++ ".mp3")) st with hm | hm <;>
    rw [hm]
  · by_cases hr : env.readOk
    · refine ⟨?_, ?_, ?_⟩
      · intro g t b o hmem
        simp [hr, emit, unlink, List.mem_append, hmix] at hmem
        exact hmem.1
      · intro fn _
        simp [hr, emit, unlink, hf, filter_three]
      · intro p hp
        simp [hr, emit, unlink] at hp
        rcases hp with hp | hp
        · exact hc p hp
        · right
          exact ⟨"combined", Or.inr (Or.inr rfl), by simp [hp]⟩
    · refine ⟨?_, ?_, ?_⟩
      · intro g t b o hmem
        simp [hr, emit, List.mem_append, hmix] at hmem
        exact hmem.1
      · intro fn hfn
        simp [hr, internalError] at hfn
      · intro p hp
        simp [hr, emit] at hp
        rcases hp with hp | hp
        · exact hc p hp
        · right
          exact ⟨"combined", Or.inr (Or.inr rfl), by simp [hp]⟩
  · refine ⟨?_, ?_, ?_⟩
    · intro g t b o hmem
      simp [emit, List.mem_append, hmix] at hmem
      exact hmem.1
    · intro fn hfn
      simp [internalError] at hfn
    · intro p hp
      exact hc p hp

/-- Invariants of the pipeline from the speech download on, for a starting
state with no file on disk, no allocation yet and no mix event. -/
lemma pipelineAfterUrl_inv (env : Env) (req : MixRequest) (url : String)
    (st : PipeState)
    (hmix : ∀ g t b o, Event.mixExec g t b o ∉ st.events)
    (hfiles : st.files = []) (hcreated : st.created = []) :
    (∀ g t b o,
      Event.mixExec g t b o ∈ (pipelineAfterUrl env req url st).2.events →
      g = buildFilterGraph req.ttsVolume req.backingTrackVolume 900
        req.ttsSpeed req.ttsDuration) ∧
    (∀ fn, (pipelineAfterUrl env req url st).1 = .audio fn →
      (pipelineAfterUrl env req url st).2.files = []) ∧
    (∀ p, p ∈ (pipelineAfterUrl env req url st).2.created →
      allowedTempPath env p) := by
  unfold pipelineAfterUrl
  rcases downloadAudio_cases env url "tts" st with hd | hd | hd <;> rw [hd] <;>
    dsimp only
  · -- data-URL speech download
    rcases hRB : resolveBacking env req
        { st with
          events := st.events ++
            [.fsWrite (tmpJoin ("tts" ++ "_" ++ toString env.now ++ ".mp3"))],
          files := st.files ++ [tmpJoin ("tts" ++ "_" ++ toString env.now ++ ".mp3")],
          created :=
            st.created ++ [tmpJoin ("tts" ++ "_" ++ toString env.now ++ ".mp3")] }
      with ⟨res, st2⟩
    obtain ⟨δ, nf, he2, hf2, hc2, hδ, hnf, hok⟩ := resolveBacking_shape env req
      { st with
        events := st.events ++
          [.fsWrite (tmpJoin ("tts" ++ "_" ++ toString env.now ++ ".mp3"))],
        files := st.files ++ [tmpJoin ("tts" ++ "_" ++ toString env.now ++ ".mp3")],
        created :=
          st.created ++ [tmpJoin ("tts" ++ "_" ++ toString env.now ++ ".mp3")] }
    rw [hRB] at he2 hf2 hc2 hok
    rcases res with e | bp <;> dsimp only at he2 hf2 hc2 hok ⊢
    · refine ⟨?_, ?_, ?_⟩
      · intro g t b o hmem
        rw [he2] at hmem
        simp [List.mem_append, hmix, hδ] at hmem
      · intro fn hfn
        simp [internalError] at hfn
      · intro p hp
        rw [hc2] at hp
        simp [hcreated, List.mem_append] at hp
        rcases hp with hp | hp
        · exact Or.inr ⟨"tts", Or.inl rfl, by simp [hp]⟩
        · rcases hnf p (by simp [hp]) with h | h
          · exact Or.inl h
          · exact Or.inr ⟨"backing", Or.inr (Or.inl rfl), by simp [h]⟩
    · have hnfbp := hok bp rfl
      subst hnfbp
      refine afterFiles_inv env req _ bp _ ?_ ?_ ?_
      · intro g t b o hmem
        rw [he2] at hmem
        simp [List.mem_append, hmix, hδ] at hmem
      · rw [hf2, hfiles]
        simp [hok bp rfl]
      · intro p hp
        rw [hc2] at hp
        simp [hcreated, List.mem_append] at hp
        rcases hp with hp | hp
        · exact Or.inr ⟨"tts", Or.inl rfl, by simp [hp]⟩
        · rcases hnf p (by simp [hp]) with h | h
          · exact Or.inl h
          · exact Or.inr ⟨"backing", Or.inr (Or.inl rfl), by simp [h]⟩
  · -- fetched speech download
    rcases hRB : resolveBacking env req
        { st with
          events := st.events ++
            [.netFetch url,
             .fsWrite (tmpJoin ("tts" ++ "_" ++ toString env.now ++ ".mp3"))],
          files := st.files ++ [tmpJoin ("tts" ++ "_" ++ toString env.now ++ ".mp3")],
          created :=
            st.created ++ [tmpJoin ("tts" ++ "_" ++ toString env.now ++ ".mp3")] }
      with ⟨res, st2⟩
    obtain ⟨δ, nf, he2, hf2, hc2, hδ, hnf, hok⟩ := resolveBacking_shape env req
      { st with
        events := st.events ++
          [.netFetch url,
           .fsWrite (tmpJoin ("tts" ++ "_" ++ toString env.now ++ ".mp3"))],
        files := st.files ++ [tmpJoin ("tts" ++ "_" ++ toString env.now ++ ".mp3")],
        created :=
          st.created ++ [tmpJoin ("tts" ++ "_" ++ toString env.now ++ ".mp3")] }
    rw [hRB] at he2 hf2 hc2 hok
    rcases res with e | bp <;> dsimp only at he2 hf2 hc2 hok ⊢
    · refine ⟨?_, ?_, ?_⟩
      · intro g t b o hmem
        rw [he2] at hmem
        simp [List.mem_append, hmix, hδ] at hmem
      · intro fn hfn
        simp [internalError] at hfn
      · intro p hp
        rw [hc2] at hp
        simp [hcreated, List.mem_append] at hp
        rcases hp with hp | hp
        · exact Or.inr ⟨"tts", Or.inl rfl, by simp [hp]⟩
        · rcases hnf p (by simp [hp]) with h | h
          · exact Or.inl h
          · exact Or.inr ⟨"backing", Or.inr (Or.inl rfl), by simp [h]⟩
    · have hnfbp := hok bp rfl
      subst hnfbp
      refine afterFiles_inv env req _ bp _ ?_ ?_ ?_
      · intro g t b o hmem
        rw [he2] at hmem
        simp [List.mem_append, hmix, hδ] at hmem
      · rw [hf2, hfiles]
        simp [hok bp rfl]
      · intro p hp
        rw [hc2] at hp
        simp [hcreated, List.mem_append] at hp
        rcases hp with hp | hp
        · exact Or.inr ⟨"tts", Or.inl rfl, by simp [hp]⟩
        · rcases hnf p (by simp [hp]) with h | h
          · exact Or.inl h
          · exact Or.inr ⟨"backing", Or.inr (Or.inl rfl), by simp [h]⟩
  · -- speech download failed
    refine ⟨?_, ?_, ?_⟩
    · intro g t b o hmem
      simp [List.mem_append, hmix] at hmem
    · intro fn hfn
      simp [internalError] at hfn
    · intro p hp
      simp [hcreated] at hp

/-- Requests failing one of the thrown validations, or the text-repetition
range error, are answered 500 right after the version probe: no synthesis,
storage, fetch, silence or mix action happens and no temp file is created. -/
lemma POST_early (env : Env) (req : MixRequest)
    (htext : req.text ≠ "") (hback : req.selectedBackingTrack ≠ "")
    (h : req.ttsSpeed < 1 / 2 ∨ 4 < req.ttsSpeed ∨
      req.trackDuration < req.ttsDuration ∨
      req.ttsDuration = 0 ∨ ⌈(900 : ℚ) / req.ttsDuration⌉ < 0) :
    POST env req = (internalError, probeOnly) := by
  have hst : emit Event.versionProbe ⟨[], [], []⟩ = probeOnly := by
    simp [emit, probeOnly]
  simp only [POST, hst]
  by_cases h1 : env.ffmpegOk
  · rw [if_neg (by simp [h1]), if_neg (by simp [htext, hback])]
    by_cases hc3 : req.ttsSpeed < 1 / 2 ∨ 4 < req.ttsSpeed
    · rw [if_pos hc3]
    · rw [if_neg hc3]
      by_cases hc4 : req.trackDuration < req.ttsDuration
      · rw [if_pos hc4]
      · rw [if_neg hc4]
        have hrt : repeatedText req.text req.ttsDuration =
            .error .repeatRange := by
          unfold repeatedText
          rcases h with h | h | h | h | h
          · exact absurd (Or.inl h) hc3
          · exact absurd (Or.inr h) hc3
          · exact absurd h hc4
          · simp [h]
          · have hd0 : req.ttsDuration ≠ 0 := by
              intro h0
              rw [h0] at h
              norm_num at h
            simp [hd0, h]
        rw [hrt]
  · rw [if_pos (by simp [h1])]

/-- Master trace invariant of one invocation: every mix event carries the
filter graph built from the request's numbers and the constant 900-second
track duration; a success response implies every temp file was deleted; and
every allocated temp path is either the fixed silence path or a
prefix-and-timestamp path. -/
lemma POST_trace (env : Env) (req : MixRequest) :
    (∀ g t b o, Event.mixExec g t b o ∈ (POST env req).2.events →
      g = buildFilterGraph req.ttsVolume req.backingTrackVolume 900
        req.ttsSpeed req.ttsDuration) ∧
    (∀ fn, (POST env req).1 = .audio fn → (POST env req).2.files = []) ∧
    (∀ p, p ∈ (POST env req).2.created → allowedTempPath env p) := by
  have hst : emit Event.versionProbe ⟨[], [], []⟩ = probeOnly := by
    simp [emit, probeOnly]
  simp only [POST, hst]
  by_cases h1 : env.ffmpegOk
  · rw [if_neg (by simp [h1])]
    by_cases h2 : req.text = "" ∨ req.selectedBackingTrack = ""
    · rw [if_pos h2]
      exact ⟨by simp [probeOnly], by simp, by simp [probeOnly]⟩
    · rw [if_neg h2]
      by_cases h3 : req.ttsSpeed < 1 / 2 ∨ 4 < req.ttsSpeed
      · rw [if_pos h3]
        exact ⟨by simp [probeOnly], by simp [internalError], by simp [probeOnly]⟩
      · rw [if_neg h3]
        by_cases h4 : req.trackDuration < req.ttsDuration
        · rw [if_pos h4]
          exact ⟨by simp [probeOnly], by simp [internalError],
            by simp [probeOnly]⟩
        · rw [if_neg h4]
          rcases hrt : repeatedText req.text req.ttsDuration with e | txt <;>
              dsimp only
          · exact ⟨by simp [probeOnly], by simp [internalError],
              by simp [probeOnly]⟩
          · by_cases hdata : jsStartsWith req.text "data:audio" = true
            · rw [if_pos hdata]
              dsimp only
              exact pipelineAfterUrl_inv env req req.text probeOnly
                (by simp [probeOnly]) (by simp [probeOnly]) (by simp [probeOnly])
            · rw [if_neg hdata]
              rcases hG : generatePollyTTS env txt probeOnly with ⟨res, st2⟩
              obtain ⟨δ, he2, hf2, hc2, hδ⟩ :=
                generatePollyTTS_shape env txt probeOnly
              rw [hG] at he2 hf2 hc2
              rcases res with e | ttsUrl <;> dsimp only at he2 hf2 hc2 ⊢
              · refine ⟨?_, ?_, ?_⟩
                · intro g t b o hmem
                  rw [he2] at hmem
                  simp [probeOnly, List.mem_append] at hmem
                  rcases hδ _ hmem with ⟨c, hc⟩ | ⟨k, hk⟩ <;> simp_all
                · intro fn hfn
                  simp [internalError] at hfn
                · intro p hp
                  rw [hc2] at hp
                  simp [probeOnly] at hp
              · refine pipelineAfterUrl_inv env req ttsUrl st2 ?_ ?_ ?_
                · intro g t b o hmem
                  rw [he2] at hmem
                  simp [probeOnly, List.mem_append] at hmem
                  rcases hδ _ hmem with ⟨c, hc⟩ | ⟨k, hk⟩ <;> simp_all
                · rw [hf2]; simp [probeOnly]
                · rw [hc2]; simp [probeOnly]
  · rw [if_pos (by simp [h1])]
    exact ⟨by simp [probeOnly], by simp [internalError], by simp [probeOnly]⟩

/-! ## Concrete evaluations of the pipeline -/

set_option maxRecDepth 8000 in
lemma runInline600_eq :
    POST envOk reqInline600 =
      (.audio "combined_affirmation_audio.mp3",
       ⟨[.versionProbe, .fsWrite "/tmp/tts_5.mp3", .fsWrite "/tmp/backing_5.mp3",
         .mixExec (buildFilterGraph 1 1 900 1 30) "/tmp/tts_5.mp3"
           "/tmp/backing_5.mp3" "/tmp/combined_5.mp3",
         .fsRead "/tmp/combined_5.mp3", .fsUnlink "/tmp/tts_5.mp3",
         .fsUnlink "/tmp/backing_5.mp3", .fsUnlink "/tmp/combined_5.mp3"],
        [],
        ["/tmp/tts_5.mp3", "/tmp/backing_5.mp3", "/tmp/combined_5.mp3"]⟩) := by
  norm_num [POST, pipelineAfterUrl, resolveBacking, afterFiles, envOk,
    reqInline600, repeatedText, downloadAudio, createSilentAudio, mixAudio,
    generatePollyTTS, emit, createFile, unlink, tmpJoin, internalError,
    jsStartsWith]
  simp [show toString (5 : ℕ) = "5" from rfl, List.filter]

set_option maxRecDepth 8000 in
lemma runSpeed3_eq :
    POST envOk reqSpeed3 =
      (.audio "combined_affirmation_audio.mp3",
       ⟨[.versionProbe, .fsWrite "/tmp/tts_5.mp3", .fsWrite "/tmp/backing_5.mp3",
         .mixExec (buildFilterGraph 1 1 900 3 30) "/tmp/tts_5.mp3"
           "/tmp/backing_5.mp3" "/tmp/combined_5.mp3",
         .fsRead "/tmp/combined_5.mp3", .fsUnlink "/tmp/tts_5.mp3",
         .fsUnlink "/tmp/backing_5.mp3", .fsUnlink "/tmp/combined_5.mp3"],
        [],
        ["/tmp/tts_5.mp3", "/tmp/backing_5.mp3", "/tmp/combined_5.mp3"]⟩) := by
  norm_num [POST, pipelineAfterUrl, resolveBacking, afterFiles, envOk,
    reqSpeed3, repeatedText, downloadAudio, createSilentAudio, mixAudio,
    generatePollyTTS, emit, createFile, unlink, tmpJoin, internalError,
    jsStartsWith]
  simp [show toString (5 : ℕ) = "5" from rfl, List.filter]

set_option maxRecDepth 8000 in
lemma runMixFail_eq :
    POST envMixFail reqInline600 =
      (internalError,
       ⟨[.versionProbe, .fsWrite "/tmp/tts_5.mp3", .fsWrite "/tmp/backing_5.mp3",
         .mixExec (buildFilterGraph 1 1 900 1 30) "/tmp/tts_5.mp3"
           "/tmp/backing_5.mp3" "/tmp/combined_5.mp3"],
        ["/tmp/tts_5.mp3", "/tmp/backing_5.mp3"],
        ["/tmp/tts_5.mp3", "/tmp/backing_5.mp3"]⟩) := by
  norm_num [POST, pipelineAfterUrl, resolveBacking, afterFiles, envMixFail,
    envOk, reqInline600, repeatedText, downloadAudio, createSilentAudio,
    mixAudio, generatePollyTTS, emit, createFile, unlink, tmpJoin,
    internalError, jsStartsWith]
  simp [show toString (5 : ℕ) = "5" from rfl, List.filter]

set_option maxRecDepth 8000 in
lemma runNegDur_eq :
    POST envOk reqNegDur =
      (.audio "combined_affirmation_audio.mp3",
       ⟨[.versionProbe, .fsWrite "/tmp/tts_5.mp3", .fsWrite "/tmp/backing_5.mp3",
         .mixExec (buildFilterGraph 1 1 900 1 (-1000)) "/tmp/tts_5.mp3"
           "/tmp/backing_5.mp3" "/tmp/combined_5.mp3",
         .fsRead "/tmp/combined_5.mp3", .fsUnlink "/tmp/tts_5.mp3",
         .fsUnlink "/tmp/backing_5.mp3", .fsUnlink "/tmp/combined_5.mp3"],
        [],
        ["/tmp/tts_5.mp3", "/tmp/backing_5.mp3", "/tmp/combined_5.mp3"]⟩) := by
  norm_num [POST, pipelineAfterUrl, resolveBacking, afterFiles, envOk,
    reqNegDur, repeatedText, downloadAudio, createSilentAudio, mixAudio,
    generatePollyTTS, emit, createFile, unlink, tmpJoin, internalError,
    jsStartsWith, Int.ceil_eq_iff]
  simp [show toString (5 : ℕ) = "5" from rfl, List.filter]
  have h0 : ⌈-((9 : ℚ) / 10)⌉ = 0 := by norm_num [Int.ceil_eq_iff]
  simp [h0]

set_option maxRecDepth 8000 in
lemma runPresent_eq :
    POST envOk reqPresent =
      (.audio "combined_affirmation_audio.mp3",
       ⟨[.versionProbe, .fsWrite "/tmp/tts_5.mp3",
         .silenceExec "/tmp/silent.mp3" 600,
         .mixExec (buildFilterGraph 1 1 900 1 30) "/tmp/tts_5.mp3"
           "/tmp/silent.mp3" "/tmp/combined_5.mp3",
         .fsRead "/tmp/combined_5.mp3", .fsUnlink "/tmp/tts_5.mp3",
         .fsUnlink "/tmp/silent.mp3", .fsUnlink "/tmp/combined_5.mp3"],
        [],
        ["/tmp/tts_5.mp3", "/tmp/silent.mp3", "/tmp/combined_5.mp3"]⟩) := by
  norm_num [POST, pipelineAfterUrl, resolveBacking, afterFiles, envOk,
    reqPresent, repeatedText, downloadAudio, createSilentAudio, mixAudio,
    generatePollyTTS, emit, createFile, unlink, tmpJoin, internalError,
    jsStartsWith]
  simp [show toString (5 : ℕ) = "5" from rfl, List.filter]

lemma runOverLong_eq : POST envOk reqOverLong = (internalError, probeOnly) :=
  POST_early envOk reqOverLong (by simp [reqOverLong]) (by simp [reqOverLong])
    (by norm_num [reqOverLong])

lemma runSpeed5_eq : POST envOk reqSpeed5 = (internalError, probeOnly) :=
  POST_early envOk reqSpeed5 (by simp [reqSpeed5]) (by simp [reqSpeed5])
    (by norm_num [reqSpeed5])

lemma runNegSmall_eq : POST envOk reqNegSmall = (internalError, probeOnly) :=
  POST_early envOk reqNegSmall (by simp [reqNegSmall]) (by simp [reqNegSmall])
    (by
      refine Or.inr (Or.inr (Or.inr (Or.inr ?_)))
      norm_num [reqNegSmall]
      have h30 : ⌈(-30 : ℚ)⌉ = -30 := by norm_num [Int.ceil_eq_iff]
      omega)

/-! ## Analysis of `getAtempoFilters` -/

/-- Closed form of `getAtempoFilters`: after clamping, at most one halving
step is taken, the sub-`0.5` loop never runs, and the residual is emitted
rounded to two decimals unless it is exactly `1`. -/
lemma getAtempoFilters_eq (speed : ℚ) :
    getAtempoFilters speed =
      if 2 < min (max speed (1 / 2)) 4 then
        [2, round2 (min (max speed (1 / 2)) 4 / 2)]
      else if min (max speed (1 / 2)) 4 = 1 then []
      else [round2 (min (max speed (1 / 2)) 4)] := by
  have hle : min (max speed (1 / 2)) 4 ≤ 4 := min_le_right _ _
  have hge : (1 / 2 : ℚ) ≤ min (max speed (1 / 2)) 4 :=
    le_min (le_max_right _ _) (by norm_num)
  unfold getAtempoFilters
  by_cases h2 : 2 < min (max speed (1 / 2)) 4
  · have hhalf2 : ¬(2 < min (max speed (1 / 2)) 4 / 2) := by
      intro hcon
      linarith
    have hne : min (max speed (1 / 2)) 4 / 2 ≠ 1 := by
      intro hcon
      rw [div_eq_one_iff_eq (by norm_num)] at hcon
      linarith
    have hnl : ¬(min (max speed (1 / 2)) 4 / 2 < 1 / 2) := by
      intro hcon
      linarith
    simp only [halveLoop, doubleLoop, if_pos h2, if_neg hhalf2, if_neg hnl,
      if_neg hne]
    rfl
  · have hnl : ¬(min (max speed (1 / 2)) 4 < 1 / 2) := by
      intro hcon
      linarith
    simp only [halveLoop, doubleLoop, if_neg h2, if_neg hnl]
    rfl

/-- The two-decimal rounding moves a value by at most `1/200`. -/
lemma round2_err (x : ℚ) : |round2 x - x| ≤ 1 / 200 := by
  unfold round2
  have h : |x * 100 - round (x * 100)| ≤ 1 / 2 := abs_sub_round (x * 100)
  have heq : (round (x * 100) : ℚ) / 100 - x =
      -((x * 100 - round (x * 100)) / 100) := by ring
  rw [heq, abs_neg, abs_div, abs_of_pos (by norm_num : (0 : ℚ) < 100)]
  rw [div_le_div_iff (by norm_num) (by norm_num)]
  linarith

/-- The two-decimal rounding keeps values of `[1/2, 2]` inside `[1/2, 2]`. -/
lemma round2_mem (x : ℚ) (h1 : 1 / 2 ≤ x) (h2 : x ≤ 2) :
    1 / 2 ≤ round2 x ∧ round2 x ≤ 2 := by
  unfold round2
  rw [round_eq]
  have hl : (50 : ℤ) ≤ ⌊x * 100 + 1 / 2⌋ := by
    apply Int.le_floor.2
    push_cast
    linarith
  have hu : ⌊x * 100 + 1 / 2⌋ ≤ 200 := by
    have hlt : ⌊x * 100 + 1 / 2⌋ < (201 : ℤ) := by
      apply Int.floor_lt.2
      push_cast
      linarith
    omega
  constructor
  · rw [le_div_iff (by norm_num : (0 : ℚ) < 100)]
    calc (1 / 2 : ℚ) * 100 = ((50 : ℤ) : ℚ) := by norm_num
    _ ≤ _ := by exact_mod_cast hl
  · rw [div_le_iff (by norm_num : (0 : ℚ) < 100)]
    calc ((⌊x * 100 + 1 / 2⌋ : ℤ) : ℚ) ≤ ((200 : ℤ) : ℚ) := by exact_mod_cast hu
    _ = 2 * 100 := by norm_num

/-! ## Decibel value bounds -/

/-- Rational bounds on `log10 2` from `10^59 < 2^196` and `2^93 < 10^28`. -/
lemma log10_two_bounds :
    (59 : ℝ) / 196 < Real.logb 10 2 ∧ Real.logb 10 2 < 28 / 93 := by
  have h10 : (0 : ℝ) < Real.log 10 := Real.log_pos (by norm_num)
  unfold Real.logb
  constructor
  · rw [div_lt_div_iff (by norm_num) h10]
    have hpow : (10 : ℝ) ^ (59 : ℕ) < 2 ^ (196 : ℕ) := by norm_num
    have := Real.log_lt_log (by positivity) hpow
    rw [Real.log_pow, Real.log_pow] at this
    push_cast at this
    linarith
  · rw [div_lt_div_iff h10 (by norm_num)]
    have hpow : (2 : ℝ) ^ (93 : ℕ) < 10 ^ (28 : ℕ) := by norm_num
    have := Real.log_lt_log (by positivity) hpow
    rw [Real.log_pow, Real.log_pow] at this
    push_cast at this
    linarith

/-- A linear gain of one half converts to about `-6.02` decibels. -/
lemma logb_half_db :
    |Real.logb 10 (1 / 2 : ℝ) * 20 - (-6.02)| < 1 / 100 := by
  obtain ⟨hlo, hhi⟩ := log10_two_bounds
  have hinv : Real.logb 10 ((1 : ℝ) / 2) = -Real.logb 10 2 := by
    rw [show ((1 : ℝ) / 2) = (2 : ℝ)⁻¹ by norm_num, Real.logb_inv]
  rw [hinv, abs_lt]
  constructor <;> nlinarith [hlo, hhi]

/-! ## Claim theorems -/

/-- C1 (counterexample): a fully successful run whose request asks for a
600-second track still passes a trim end of 900 seconds to the engine, so the
trim window does not end at the request's `trackDuration` field. -/
theorem C1_counterexample :
    Event.mixExec (buildFilterGraph 1 1 900 1 30) "/tmp/tts_5.mp3"
        "/tmp/backing_5.mp3" "/tmp/combined_5.mp3" ∈
      (POST envOk reqInline600).2.events ∧
    (buildFilterGraph 1 1 900 1 30).trimEnd = 900 ∧
    reqInline600.trackDuration = 600 ∧ (900 : ℚ) ≠ 600 := by
  refine ⟨by rw [runInline600_eq]; simp, rfl, rfl, by norm_num⟩

/-- C1 (amended): for every request processed by the mix pipeline, the trim
window passed to the engine ends at the fixed constant 900 seconds — the
shadowing `trackDuration = 900` of route.ts:192 — regardless of the request's
`trackDuration` field. -/
theorem C1_trim_end_is_constant_900 (env : Env) (req : MixRequest)
    (g : FilterGraph) (t b o : String)
    (h : Event.mixExec g t b o ∈ (POST env req).2.events) :
    g.trimEnd = 900 := by
  rw [(POST_trace env req).1 g t b o h]
  rfl

/-- C1 (witness): the amended theorem applied to a concrete successful run. -/
theorem C1_witness : (buildFilterGraph 1 1 900 1 30).trimEnd = 900 :=
  C1_trim_end_is_constant_900 envOk reqInline600 (buildFilterGraph 1 1 900 1 30)
    "/tmp/tts_5.mp3" "/tmp/backing_5.mp3" "/tmp/combined_5.mp3"
    (by rw [runInline600_eq]; simp)

/-- C2 (code bug): a valid request with `ttsSpeed = 3.0` makes the route embed
the single out-of-range step `atempo=3` in the filter graph, although its own
(unused) helper `getAtempoFilters` decomposes `3.0` into the in-range chain
`[2.0, 1.5]` whose product is `3.0`. -/
theorem C2_single_out_of_range_step :
    Event.mixExec (buildFilterGraph 1 1 900 3 30) "/tmp/tts_5.mp3"
        "/tmp/backing_5.mp3" "/tmp/combined_5.mp3" ∈
      (POST envOk reqSpeed3).2.events ∧
    (buildFilterGraph 1 1 900 3 30).atempo = [3] ∧
    (2 : ℚ) < 3 ∧
    getAtempoFilters 3 = [2, 3 / 2] ∧
    ([2, 3 / 2] : List ℚ).prod = 3 := by
  refine ⟨by rw [runSpeed3_eq]; simp, rfl, by norm_num, ?_, by norm_num⟩
  rw [getAtempoFilters_eq]
  norm_num [round2, round_eq]

/-- C3 (counterexample): in a successful run with requested track duration
600 s, speech duration 30 s and unit speed, the loop count embedded in the
filter graph is 30 — computed from the constant 900 — while the claimed
formula over the request's track duration gives 20. -/
theorem C3_counterexample :
    Event.mixExec (buildFilterGraph 1 1 900 1 30) "/tmp/tts_5.mp3"
        "/tmp/backing_5.mp3" "/tmp/combined_5.mp3" ∈
      (POST envOk reqInline600).2.events ∧
    (buildFilterGraph 1 1 900 1 30).loopCount = 30 ∧
    ⌈reqInline600.trackDuration /
      (reqInline600.ttsDuration / reqInline600.ttsSpeed)⌉ = 20 ∧
    (30 : ℤ) ≠ 20 := by
  refine ⟨by rw [runInline600_eq]; simp, ?_, ?_, by norm_num⟩
  · show ⌈(900 : ℚ) / ((30 : ℚ) / 1)⌉ = 30
    norm_num
  · show ⌈(600 : ℚ) / ((30 : ℚ) / 1)⌉ = 20
    norm_num

/-- C3 (amended): for every request with positive speech duration and positive
speed whose mix is invoked, the loop count embedded in the filter graph is
`ceil(900 / (ttsDuration / ttsSpeed))` — over the fixed constant 900, not the
request's track duration — it is a positive integer, and the pre-trim
composed speech duration `loopCount · (ttsDuration / ttsSpeed)` is at least
900 (the example `ttsDuration = 30`, `ttsSpeed = 1` gives 30, and coincides
with the claim's example because there the requested duration is also 900). -/
theorem C3_loop_count_from_constant (env : Env) (req : MixRequest)
    (g : FilterGraph) (t b o : String) (hd : 0 < req.ttsDuration)
    (hs : 0 < req.ttsSpeed)
    (h : Event.mixExec g t b o ∈ (POST env req).2.events) :
    g.loopCount = ⌈(900 : ℚ) / (req.ttsDuration / req.ttsSpeed)⌉ ∧
    1 ≤ g.loopCount ∧
    (900 : ℚ) ≤ (g.loopCount : ℚ) * (req.ttsDuration / req.ttsSpeed) := by
  have hg := (POST_trace env req).1 g t b o h
  subst hg
  have hq : 0 < req.ttsDuration / req.ttsSpeed := div_pos hd hs
  refine ⟨rfl, ?_, ?_⟩
  · have hpos : (0 : ℤ) <
        ⌈(900 : ℚ) / (req.ttsDuration / req.ttsSpeed)⌉ :=
      Int.ceil_pos.2 (div_pos (by norm_num) hq)
    show 1 ≤ ⌈(900 : ℚ) / (req.ttsDuration / req.ttsSpeed)⌉
    omega
  · have hle := Int.le_ceil ((900 : ℚ) / (req.ttsDuration / req.ttsSpeed))
    show (900 : ℚ) ≤
      (⌈(900 : ℚ) / (req.ttsDuration / req.ttsSpeed)⌉ : ℚ) *
        (req.ttsDuration / req.ttsSpeed)
    calc (900 : ℚ) =
        900 / (req.ttsDuration / req.ttsSpeed) *
          (req.ttsDuration / req.ttsSpeed) := by field_simp
    _ ≤ (⌈(900 : ℚ) / (req.ttsDuration / req.ttsSpeed)⌉ : ℚ) *
          (req.ttsDuration / req.ttsSpeed) :=
        mul_le_mul_of_nonneg_right hle (le_of_lt hq)

/-- C3 (witness): the amended theorem at `ttsDuration = 30`, `ttsSpeed = 1`,
where the embedded loop count is 30. -/
theorem C3_witness :
    ((buildFilterGraph 1 1 900 1 30).loopCount =
        ⌈(900 : ℚ) / ((30 : ℚ) / 1)⌉ ∧
      1 ≤ (buildFilterGraph 1 1 900 1 30).loopCount ∧
      (900 : ℚ) ≤ ((buildFilterGraph 1 1 900 1 30).loopCount : ℚ) *
        ((30 : ℚ) / 1)) ∧
    (buildFilterGraph 1 1 900 1 30).loopCount = 30 :=
  ⟨C3_loop_count_from_constant envOk reqInline600 _ "/tmp/tts_5.mp3"
      "/tmp/backing_5.mp3" "/tmp/combined_5.mp3" (by norm_num [reqInline600])
      (by norm_num [reqInline600]) (by rw [runInline600_eq]; simp),
    by show ⌈(900 : ℚ) / ((30 : ℚ) / 1)⌉ = 30; norm_num⟩

/-- C4 (counterexample): when the engine's mixing process fails, the request
exits with a 500 response while the speech and backing temp files are still
on disk — cleanup runs only on the success path. -/
theorem C4_counterexample :
    (POST envMixFail reqInline600).1.status = 500 ∧
    (POST envMixFail reqInline600).2.files =
      ["/tmp/tts_5.mp3", "/tmp/backing_5.mp3"] ∧
    (["/tmp/tts_5.mp3", "/tmp/backing_5.mp3"] : List String) ≠ [] := by
  refine ⟨by rw [runMixFail_eq]; rfl, by rw [runMixFail_eq], by simp⟩

/-- C4 (amended): on the success path — and only there — all temporary
filesystem artifacts created during the invocation are deleted before the
request returns. -/
theorem C4_success_path_cleanup (env : Env) (req : MixRequest) (fn : String)
    (h : (POST env req).1 = .audio fn) : (POST env req).2.files = [] :=
  (POST_trace env req).2.1 fn h

/-- C4 (witness): the amended theorem on a concrete successful run. -/
theorem C4_witness : (POST envOk reqInline600).2.files = [] :=
  C4_success_path_cleanup envOk reqInline600 "combined_affirmation_audio.mp3"
    (by rw [runInline600_eq])

/-- C5 (counterexample): a request whose speech duration (600 s) exceeds its
track duration (500 s) is answered with HTTP 500, not 400. -/
theorem C5_counterexample :
    (POST envOk reqOverLong).1 =
      ApiResponse.jsonError 500 "Internal Server Error" ∧
    (POST envOk reqOverLong).1.status ≠ 400 := by
  rw [runOverLong_eq]
  exact ⟨rfl, by simp [internalError, ApiResponse.status]⟩

/-- C5 (amended): every request whose `ttsDuration` exceeds its
`trackDuration` is rejected before any synthesis, fetch or mixing, but the
response status is 500 — the catch-all status of the route's thrown errors;
400 is used only for missing or mistyped parameters. -/
theorem C5_overlong_rejected_with_500 (env : Env) (req : MixRequest)
    (htext : req.text ≠ "") (hback : req.selectedBackingTrack ≠ "")
    (h : req.trackDuration < req.ttsDuration) :
    (POST env req).1.status = 500 ∧
    ∀ g t b o, Event.mixExec g t b o ∉ (POST env req).2.events := by
  have he := POST_early env req htext hback (Or.inr (Or.inr (Or.inl h)))
  rw [he]
  exact ⟨rfl, by simp [probeOnly]⟩

/-- C5 (witness): the amended theorem on the concrete over-long request. -/
theorem C5_witness :
    (POST envOk reqOverLong).1.status = 500 ∧
    ∀ g t b o, Event.mixExec g t b o ∉ (POST envOk reqOverLong).2.events :=
  C5_overlong_rejected_with_500 envOk reqOverLong (by simp [reqOverLong])
    (by simp [reqOverLong]) (by norm_num [reqOverLong])

/-- C6 (counterexample): with inline speech audio and
`ttsDuration = -1000 ≤ 0` the pipeline raises no error at all: the repeat
count rounds up to zero, the run succeeds, and the mix proceeds with the
degenerate loop count 0. -/
theorem C6_counterexample :
    reqNegDur.ttsDuration < 0 ∧
    (POST envOk reqNegDur).1 = .audio "combined_affirmation_audio.mp3" ∧
    Event.mixExec (buildFilterGraph 1 1 900 1 (-1000)) "/tmp/tts_5.mp3"
        "/tmp/backing_5.mp3" "/tmp/combined_5.mp3" ∈
      (POST envOk reqNegDur).2.events ∧
    (buildFilterGraph 1 1 900 1 (-1000)).loopCount = 0 := by
  refine ⟨by norm_num [reqNegDur], by rw [runNegDur_eq],
    by rw [runNegDur_eq]; simp, ?_⟩
  show ⌈(900 : ℚ) / ((-1000 : ℚ) / 1)⌉ = 0
  norm_num [Int.ceil_eq_iff]

/-- C6 (amended): for `ttsSpeed` outside `[0.5, 4.0]`, and for `ttsDuration`
in `[-900, 0]`, the request fails with a 500 response right after the version
probe (speed range check, duration-exceeds-track check, or `RangeError`
computing the text repetition count) and the mix never runs; for
`ttsDuration < -900` no such failure is guaranteed. -/
theorem C6_degenerate_inputs_fail_before_mix (env : Env) (req : MixRequest)
    (htext : req.text ≠ "") (hback : req.selectedBackingTrack ≠ "")
    (h : req.ttsSpeed < 1 / 2 ∨ 4 < req.ttsSpeed ∨
      (-900 ≤ req.ttsDuration ∧ req.ttsDuration ≤ 0)) :
    (POST env req).1.status = 500 ∧
    ∀ g t b o, Event.mixExec g t b o ∉ (POST env req).2.events := by
  have hcase : req.ttsSpeed < 1 / 2 ∨ 4 < req.ttsSpeed ∨
      req.trackDuration < req.ttsDuration ∨
      req.ttsDuration = 0 ∨ ⌈(900 : ℚ) / req.ttsDuration⌉ < 0 := by
    rcases h with h | h | ⟨h1, h2⟩
    · exact Or.inl h
    · exact Or.inr (Or.inl h)
    · rcases eq_or_lt_of_le h2 with h0 | hneg
      · exact Or.inr (Or.inr (Or.inr (Or.inl h0)))
      · refine Or.inr (Or.inr (Or.inr (Or.inr ?_)))
        have hle : (900 : ℚ) / req.ttsDuration ≤ -1 := by
          rw [div_le_iff_of_neg hneg]
          linarith
        have hc := Int.ceil_le.2
          (show (900 : ℚ) / req.ttsDuration ≤ ((-1 : ℤ) : ℚ) by
            exact_mod_cast hle)
        omega
  have he := POST_early env req htext hback hcase
  rw [he]
  exact ⟨rfl, by simp [probeOnly]⟩

/-- C6 (witness): the amended theorem at `ttsDuration = -30`. -/
theorem C6_witness :
    (POST envOk reqNegSmall).1.status = 500 ∧
    ∀ g t b o, Event.mixExec g t b o ∉ (POST envOk reqNegSmall).2.events :=
  C6_degenerate_inputs_fail_before_mix envOk reqNegSmall
    (by simp [reqNegSmall]) (by simp [reqNegSmall])
    (Or.inr (Or.inr (by norm_num [reqNegSmall])))

/-- C7 (counterexample): the request with `ttsSpeed = 5.0` is rejected with a
500 response, yet its trace contains the `ffmpeg -version` probe — an
external process invocation that ran before the rejection. -/
theorem C7_counterexample :
    (POST envOk reqSpeed5).1.status = 500 ∧
    Event.versionProbe ∈ (POST envOk reqSpeed5).2.events := by
  rw [runSpeed5_eq]
  exact ⟨rfl, by simp [probeOnly]⟩

/-- C7 (amended): a request with `ttsSpeed` outside `[0.5, 4.0]` is rejected
before any synthesis-provider call, storage write, network fetch, or
audio-processing invocation — but after the engine version probe, which is an
external process invocation run first on every request: the whole trace is
exactly that probe. -/
theorem C7_rejected_after_probe_only (env : Env) (req : MixRequest)
    (htext : req.text ≠ "") (hback : req.selectedBackingTrack ≠ "")
    (h : req.ttsSpeed < 1 / 2 ∨ 4 < req.ttsSpeed) :
    (POST env req).1.status = 500 ∧
    (POST env req).2.events = [Event.versionProbe] := by
  have he := POST_early env req htext hback
    (h.elim Or.inl (fun h2 => Or.inr (Or.inl h2)))
  rw [he]
  exact ⟨rfl, rfl⟩

/-- C7 (witness): the amended theorem on the concrete `ttsSpeed = 5.0`
request. -/
theorem C7_witness :
    (POST envOk reqSpeed5).1.status = 500 ∧
    (POST envOk reqSpeed5).2.events = [Event.versionProbe] :=
  C7_rejected_after_probe_only envOk reqSpeed5 (by simp [reqSpeed5])
    (by simp [reqSpeed5]) (Or.inr (by norm_num [reqSpeed5]))

/-- C8 (confirmed): the gains embedded in the filter graph are the
linear-to-decibel conversions `Math.log10(v) * 20` of the caller-supplied
linear gains; a linear gain of 1 yields 0 dB and a linear gain of 0.5 yields
about -6.02 dB. -/
theorem C8_gain_is_db_conversion (env : Env) (req : MixRequest)
    (g : FilterGraph) (t b o : String)
    (h : Event.mixExec g t b o ∈ (POST env req).2.events) :
    g.speechGainDb = Real.logb 10 ((req.ttsVolume : ℚ) : ℝ) * 20 ∧
    g.backingGainDb = Real.logb 10 ((req.backingTrackVolume : ℚ) : ℝ) * 20 ∧
    Real.logb 10 ((1 : ℝ)) * 20 = 0 ∧
    |Real.logb 10 (1 / 2 : ℝ) * 20 - (-6.02)| < 1 / 100 := by
  have hg := (POST_trace env req).1 g t b o h
  subst hg
  exact ⟨rfl, rfl, by simp, logb_half_db⟩

/-- C8 (witness): the theorem on a concrete run with `ttsVolume = 1`. -/
theorem C8_witness :
    (buildFilterGraph 1 1 900 1 30).speechGainDb =
      Real.logb 10 (((1 : ℚ) : ℝ)) * 20 ∧
    (buildFilterGraph 1 1 900 1 30).backingGainDb =
      Real.logb 10 (((1 : ℚ) : ℝ)) * 20 ∧
    Real.logb 10 ((1 : ℝ)) * 20 = 0 ∧
    |Real.logb 10 (1 / 2 : ℝ) * 20 - (-6.02)| < 1 / 100 :=
  C8_gain_is_db_conversion envOk reqInline600 (buildFilterGraph 1 1 900 1 30)
    "/tmp/tts_5.mp3" "/tmp/backing_5.mp3" "/tmp/combined_5.mp3"
    (by rw [runInline600_eq]; simp)

/-- C9 (counterexample): in a no-backing-track run the generated-silence
artifact is allocated at the fixed path `/tmp/silent.mp3`, which embeds no
time-based uniqueness token at all (its name contains no underscore-separated
timestamp). -/
theorem C9_counterexample :
    "/tmp/silent.mp3" ∈ (POST envOk reqPresent).2.created ∧
    ¬∃ (pfx : String) (t : ℕ),
      "/tmp/silent.mp3" = tmpJoin (pfx ++ "_" ++ toString t ++ ".mp3") := by
  constructor
  · rw [runPresent_eq]
    simp
  · rintro ⟨pfx, t, ht⟩
    have h1 : '_' ∈ ("_" : String).data := by decide
    have hmem : '_' ∈ ("/tmp/silent.mp3" : String).data := by
      rw [ht]
      simp only [tmpJoin, String.data_append, List.mem_append]
      tauto
    have h2 : '_' ∉ ("/tmp/silent.mp3" : String).data := by decide
    exact h2 hmem

/-- C9 (amended): every temporary path allocated during a mix invocation is
either a semantic prefix (`tts`, `backing`, `combined`) joined with the
invocation's `Date.now()` value, or the fixed silence path `silent.mp3`,
which carries no uniqueness token — so two concurrent no-track invocations
write the same silence path. -/
theorem C9_temp_path_forms (env : Env) (req : MixRequest) (p : String)
    (h : p ∈ (POST env req).2.created) :
    p = tmpJoin "silent.mp3" ∨
      ∃ pfx, (pfx = "tts" ∨ pfx = "backing" ∨ pfx = "combined") ∧
        p = tmpJoin (pfx ++ "_" ++ toString env.now ++ ".mp3") :=
  (POST_trace env req).2.2 p h

/-- C9 (witness): the amended theorem on the silence path of a concrete
no-track run. -/
theorem C9_witness :
    "/tmp/silent.mp3" = tmpJoin "silent.mp3" ∨
      ∃ pfx, (pfx = "tts" ∨ pfx = "backing" ∨ pfx = "combined") ∧
        "/tmp/silent.mp3" = tmpJoin (pfx ++ "_" ++ toString envOk.now ++ ".mp3") :=
  C9_temp_path_forms envOk reqPresent "/tmp/silent.mp3"
    (by rw [runPresent_eq]; simp)

/-- C10 (confirmed): for every positive speed, `getAtempoFilters` silently
clamps it into `[0.5, 4.0]` (applying it to the clamped value is the same),
every emitted factor lies in `[0.5, 2.0]`, the product of the chain equals
the clamped speed up to the two-decimal rounding of the final factor (within
`1/100`, and exactly: the chain is some prefix of exact factors plus the
rounded residual), and a clamped speed of exactly 1 yields the empty chain. -/
theorem C10_planner_chain (speed : ℚ) (h : 0 < speed) :
    getAtempoFilters speed = getAtempoFilters (min (max speed (1 / 2)) 4) ∧
    (∀ f ∈ getAtempoFilters speed, 1 / 2 ≤ f ∧ f ≤ 2) ∧
    |(getAtempoFilters speed).prod - min (max speed (1 / 2)) 4| ≤ 1 / 100 ∧
    (min (max speed (1 / 2)) 4 = 1 → getAtempoFilters speed = []) ∧
    (getAtempoFilters speed = [] ∨
      ∃ pre r, getAtempoFilters speed = pre ++ [round2 r] ∧
        pre.prod * r = min (max speed (1 / 2)) 4 ∧ 1 / 2 ≤ r ∧ r ≤ 2) := by
  have hle : min (max speed (1 / 2)) 4 ≤ 4 := min_le_right _ _
  have hge : (1 / 2 : ℚ) ≤ min (max speed (1 / 2)) 4 :=
    le_min (le_max_right _ _) (by norm_num)
  have hidem : min (max (min (max speed (1 / 2)) 4) (1 / 2)) 4 =
      min (max speed (1 / 2)) 4 := by
    rw [max_eq_left hge, min_eq_left hle]
  constructor
  · rw [getAtempoFilters_eq, getAtempoFilters_eq (min (max speed (1 / 2)) 4),
      hidem]
  rw [getAtempoFilters_eq]
  by_cases h2 : 2 < min (max speed (1 / 2)) 4
  · rw [if_pos h2]
    have hr1 : (1 / 2 : ℚ) ≤ min (max speed (1 / 2)) 4 / 2 := by linarith
    have hr2 : min (max speed (1 / 2)) 4 / 2 ≤ 2 := by linarith
    obtain ⟨hm1, hm2⟩ := round2_mem _ hr1 hr2
    refine ⟨?_, ?_, ?_, ?_⟩
    · intro f hf
      simp only [List.mem_cons, List.mem_singleton, List.not_mem_nil,
        or_false] at hf
      rcases hf with hf | hf <;> subst hf
      · norm_num
      · exact ⟨hm1, hm2⟩
    · have herr := round2_err (min (max speed (1 / 2)) 4 / 2)
      rw [abs_le] at herr ⊢
      simp only [List.prod_cons, List.prod_singleton, List.prod_nil, mul_one]
      constructor <;> linarith [herr.1, herr.2]
    · intro hone
      exfalso
      linarith
    · right
      exact ⟨[2], min (max speed (1 / 2)) 4 / 2, rfl,
        by rw [List.prod_singleton]; ring, hr1, hr2⟩
  · rw [if_neg h2]
    by_cases h1 : min (max speed (1 / 2)) 4 = 1
    · rw [if_pos h1]
      refine ⟨by simp, ?_, fun _ => rfl, Or.inl rfl⟩
      rw [h1]
      norm_num
    · rw [if_neg h1]
      have hr2 : min (max speed (1 / 2)) 4 ≤ 2 := by linarith
      obtain ⟨hm1, hm2⟩ := round2_mem _ hge hr2
      refine ⟨?_, ?_, ?_, ?_⟩
      · intro f hf
        simp only [List.mem_singleton] at hf
        subst hf
        exact ⟨hm1, hm2⟩
      · have herr := round2_err (min (max speed (1 / 2)) 4)
        rw [abs_le] at herr ⊢
        simp only [List.prod_singleton]
        constructor <;> linarith [herr.1, herr.2]
      · intro hone
        exact absurd hone h1
      · right
        exact ⟨[], min (max speed (1 / 2)) 4, rfl,
        by rw [List.prod_nil]; ring, hge, hr2⟩

/-- C10 (witness): the theorem at speed 3, where the chain is `[2, 1.5]`. -/
theorem C10_witness :
    (0 : ℚ) < 3 ∧
    (getAtempoFilters 3 = getAtempoFilters (min (max 3 (1 / 2)) 4) ∧
      (∀ f ∈ getAtempoFilters 3, 1 / 2 ≤ f ∧ f ≤ 2) ∧
      |(getAtempoFilters 3).prod - min (max 3 (1 / 2)) 4| ≤ 1 / 100 ∧
      (min (max (3 : ℚ) (1 / 2)) 4 = 1 → getAtempoFilters 3 = []) ∧
      (getAtempoFilters 3 = [] ∨
        ∃ pre r, getAtempoFilters 3 = pre ++ [round2 r] ∧
          pre.prod * r = min (max 3 (1 / 2)) 4 ∧ 1 / 2 ≤ r ∧ r ≤ 2)) :=
  ⟨by norm_num, C10_planner_chain 3 (by norm_num)⟩

end Subliminal
